import Mathlib

/-!
Verification of the finance-dashboard client core (src/app/page.tsx).

The development shallowly embeds the response normalizer
(parseAgentResponse), the history store (saveHistory) and the
analysis/chat orchestrator of the page component.  Loosely typed agent
payloads are modelled by the JSON-like value type JVal together with
JavaScript truthiness; the orchestrator is modelled as an explicit
event-step function over an application-state record, with outstanding
gateway calls tracked as pending-request queues.
-/

set_option maxHeartbeats 1000000

namespace FinanceAgent

/-- JSON-like runtime values flowing out of the agent gateway.  Numbers are
modelled as rationals (JavaScript NaN and infinities are outside the model). -/
inductive JVal where
  | null
  | bool (b : Bool)
  | num (q : Rat)
  | str (s : String)
  | arr (elems : List JVal)
  | obj (fields : List (String × JVal))

mutual

/-- Boolean equality on JSON values (decidable equality is derived from it,
since automatic deriving does not handle the nested lists). -/
def JVal.beq : JVal → JVal → Bool
  | JVal.null, JVal.null => true
  | JVal.bool a, JVal.bool b => a == b
  | JVal.num a, JVal.num b => decide (a = b)
  | JVal.str a, JVal.str b => a == b
  | JVal.arr xs, JVal.arr ys => JVal.beqItems xs ys
  | JVal.obj fs, JVal.obj gs => JVal.beqProps fs gs
  | _, _ => false

def JVal.beqItems : List JVal → List JVal → Bool
  | [], [] => true
  | x :: xs, y :: ys => JVal.beq x y && JVal.beqItems xs ys
  | _, _ => false

def JVal.beqProps : List (String × JVal) → List (String × JVal) → Bool
  | [], [] => true
  | (k, v) :: xs, (l, w) :: ys => k == l && JVal.beq v w && JVal.beqProps xs ys
  | _, _ => false

end

mutual

theorem JVal.beqSound : ∀ a b : JVal, JVal.beq a b = true → a = b
  | JVal.null, JVal.null, _ => rfl
  | JVal.bool a, JVal.bool b, h => by
    simp only [JVal.beq, beq_iff_eq] at h; exact congrArg JVal.bool h
  | JVal.num a, JVal.num b, h => by
    simp only [JVal.beq, decide_eq_true_eq] at h; exact congrArg JVal.num h
  | JVal.str a, JVal.str b, h => by
    simp only [JVal.beq, beq_iff_eq] at h; exact congrArg JVal.str h
  | JVal.arr xs, JVal.arr ys, h => by
    simp only [JVal.beq] at h; exact congrArg JVal.arr (JVal.beqItemsSound xs ys h)
  | JVal.obj fs, JVal.obj gs, h => by
    simp only [JVal.beq] at h; exact congrArg JVal.obj (JVal.beqPropsSound fs gs h)
  | JVal.null, JVal.bool _, h | JVal.null, JVal.num _, h | JVal.null, JVal.str _, h
  | JVal.null, JVal.arr _, h | JVal.null, JVal.obj _, h
  | JVal.bool _, JVal.null, h | JVal.bool _, JVal.num _, h | JVal.bool _, JVal.str _, h
  | JVal.bool _, JVal.arr _, h | JVal.bool _, JVal.obj _, h
  | JVal.num _, JVal.null, h | JVal.num _, JVal.bool _, h | JVal.num _, JVal.str _, h
  | JVal.num _, JVal.arr _, h | JVal.num _, JVal.obj _, h
  | JVal.str _, JVal.null, h | JVal.str _, JVal.bool _, h | JVal.str _, JVal.num _, h
  | JVal.str _, JVal.arr _, h | JVal.str _, JVal.obj _, h
  | JVal.arr _, JVal.null, h | JVal.arr _, JVal.bool _, h | JVal.arr _, JVal.num _, h
  | JVal.arr _, JVal.str _, h | JVal.arr _, JVal.obj _, h
  | JVal.obj _, JVal.null, h | JVal.obj _, JVal.bool _, h | JVal.obj _, JVal.num _, h
  | JVal.obj _, JVal.str _, h | JVal.obj _, JVal.arr _, h => by
    simp only [JVal.beq] at h
    exact Bool.noConfusion h

theorem JVal.beqItemsSound : ∀ xs ys : List JVal, JVal.beqItems xs ys = true → xs = ys
  | [], [], _ => rfl
  | x :: xs, y :: ys, h => by
    simp only [JVal.beqItems, Bool.and_eq_true] at h
    exact congrArg₂ List.cons (JVal.beqSound x y h.1) (JVal.beqItemsSound xs ys h.2)
  | [], _ :: _, h => by simp only [JVal.beqItems] at h; exact Bool.noConfusion h
  | _ :: _, [], h => by simp only [JVal.beqItems] at h; exact Bool.noConfusion h

theorem JVal.beqPropsSound :
    ∀ fs gs : List (String × JVal), JVal.beqProps fs gs = true → fs = gs
  | [], [], _ => rfl
  | (k, v) :: fs, (l, w) :: gs, h => by
    simp only [JVal.beqProps, Bool.and_eq_true, beq_iff_eq] at h
    have h1 : (k, v) = (l, w) := by
      rw [h.1.1, JVal.beqSound v w h.1.2]
    exact congrArg₂ List.cons h1 (JVal.beqPropsSound fs gs h.2)
  | [], _ :: _, h => by simp only [JVal.beqProps] at h; exact Bool.noConfusion h
  | _ :: _, [], h => by simp only [JVal.beqProps] at h; exact Bool.noConfusion h

end

mutual

theorem JVal.beqRefl : ∀ a : JVal, JVal.beq a a = true
  | JVal.null => rfl
  | JVal.bool a => by simp [JVal.beq]
  | JVal.num a => by simp [JVal.beq]
  | JVal.str a => by simp [JVal.beq]
  | JVal.arr xs => by simp only [JVal.beq]; exact JVal.beqItemsRefl xs
  | JVal.obj fs => by simp only [JVal.beq]; exact JVal.beqPropsRefl fs

theorem JVal.beqItemsRefl : ∀ xs : List JVal, JVal.beqItems xs xs = true
  | [] => rfl
  | x :: xs => by
    simp only [JVal.beqItems, Bool.and_eq_true]
    exact ⟨JVal.beqRefl x, JVal.beqItemsRefl xs⟩

theorem JVal.beqPropsRefl : ∀ fs : List (String × JVal), JVal.beqProps fs fs = true
  | [] => rfl
  | (k, v) :: fs => by
    simp only [JVal.beqProps, Bool.and_eq_true, beq_iff_eq]
    exact ⟨⟨trivial, JVal.beqRefl v⟩, JVal.beqPropsRefl fs⟩

end

instance : DecidableEq JVal := fun a b =>
  if h : JVal.beq a b = true then isTrue (JVal.beqSound a b h)
  else isFalse (fun he => h (he ▸ JVal.beqRefl a))

/-- Key lookup in a JavaScript object literal (first binding wins; the model
assumes no duplicate keys, as the source payloads have none). -/
def lookupField : List (String × JVal) → String → Option JVal
  | [], _ => none
  | (k, v) :: rest, key => if k = key then some v else lookupField rest key

/-- Property access data?.k: undefined (none) on non-objects and absent keys. -/
def getField : JVal → String → Option JVal
  | JVal.obj fs, k => lookupField fs k
  | _, _ => none

/-- JavaScript truthiness of a value. -/
def jvTruthy : JVal → Bool
  | JVal.null => false
  | JVal.bool b => b
  | JVal.num q => if q = 0 then false else true
  | JVal.str s => !s.isEmpty
  | JVal.arr _ => true
  | JVal.obj _ => true

/-- Truthiness of data?.k, where an absent key reads as undefined (falsy). -/
def fieldTruthy (d : JVal) (k : String) : Bool :=
  match getField d k with
  | some v => jvTruthy v
  | none => false

/-- v && typeof v === 'object' && !Array.isArray(v): a non-null, non-array
object value. -/
def isObjC : JVal → Bool
  | JVal.obj _ => true
  | _ => false

/-- typeof v === 'string'. -/
def isStr : JVal → Bool
  | JVal.str _ => true
  | _ => false

/-- (data?.k) ?? dflt: nullish coalescing on a property read. -/
def fieldOr (d : JVal) (k : String) (dflt : JVal) : JVal :=
  match getField d k with
  | some JVal.null => dflt
  | some v => v
  | none => dflt

/-- Array.isArray(data?.k) ? data.k : []. -/
def arrField (d : JVal) (k : String) : List JVal :=
  match getField d k with
  | some (JVal.arr xs) => xs
  | _ => []

/-- typeof data?.k === 'number' ? data.k : 0. -/
def numField (d : JVal) (k : String) : Rat :=
  match getField d k with
  | some (JVal.num q) => q
  | _ => 0

/-- data?.k is null or undefined. -/
def nullishField (d : JVal) (k : String) : Bool :=
  match getField d k with
  | none => true
  | some JVal.null => true
  | some _ => false

mutual

/-- Deterministic model of JSON.stringify (string escaping is not modelled;
the claims only need some fixed serialization of the whole payload). -/
def stringify : JVal → String
  | JVal.null => "null"
  | JVal.bool true => "true"
  | JVal.bool false => "false"
  | JVal.num q => toString q
  | JVal.str s => "\"" ++ s ++ "\""
  | JVal.arr xs => "[" ++ stringifyItems xs ++ "]"
  | JVal.obj fs => "\x7b" ++ stringifyProps fs ++ "\x7d"

def stringifyItems : List JVal → String
  | [] => ""
  | [v] => stringify v
  | v :: rest => stringify v ++ "," ++ stringifyItems rest

def stringifyProps : List (String × JVal) → String
  | [] => ""
  | [(k, v)] => "\"" ++ k ++ "\":" ++ stringify v
  | (k, v) :: rest => "\"" ++ k ++ "\":" ++ stringify v ++ "," ++ stringifyProps rest

end

/-- One unwrap step of parseAgentResponse: if data?.key is a truthy non-array
object then descend into it, otherwise keep data. -/
def unwrapStep (d : JVal) (key : String) : JVal :=
  match getField d key with
  | some v => if isObjC v then v else d
  | none => d

/-- The defensive unwrapping performed by parseAgentResponse: one `result`
step followed by one `response` step, in that fixed order. -/
def unwrapData (raw : JVal) : JVal :=
  unwrapStep (unwrapStep raw "result") "response"

/-- The structured-report detection of parseAgentResponse:
data?.income_summary || data?.credit_cards || data?.category_breakdown. -/
def structTrigger (data : JVal) : Bool :=
  fieldTruthy data "income_summary" || fieldTruthy data "credit_cards" ||
    fieldTruthy data "category_breakdown"

/-- The conversational text extraction of parseAgentResponse, applied to the
raw (pre-unwrap) result value: a raw string payload, else its text field,
else its message field, else a serialization of the whole payload. -/
def rawText (raw : JVal) : JVal :=
  match raw with
  | JVal.str s => JVal.str s
  | _ => fieldOr raw "text" (fieldOr raw "message" (JVal.str (stringify raw)))

/-- The canonical FinancialReport of page.tsx.  Fields the source merely
casts (report_type, income_summary, array elements, advice, ...) keep their
runtime JVal form; income_summary is JVal.null when absent, mirroring the
IncomeSummary-or-null source type. -/
structure FinancialReport where
  report_type : JVal
  income_summary : JVal
  credit_cards : List JVal
  category_breakdown : List JVal
  risk_alerts : List JVal
  safe_to_spend : Rat
  analysis_period : JVal
  advice : JVal
  follow_up_response : JVal
deriving DecidableEq

/-- The response part of an AIAgentResponse envelope: result payload and the
optional message field read by the chat fallback chain. -/
structure EnvResponse where
  result : Option JVal
  message : Option String
deriving DecidableEq

/-- The AIAgentResponse envelope returned by callAIAgent. -/
structure AgentEnvelope where
  success : Bool
  response : Option EnvResponse
deriving DecidableEq

/-- The structured branch of parseAgentResponse, built from the unwrapped
payload. -/
def mkStructuredReport (data : JVal) : FinancialReport :=
  { report_type := fieldOr data "report_type" (JVal.str "Monthly Analysis")
    income_summary := fieldOr data "income_summary" JVal.null
    credit_cards := arrField data "credit_cards"
    category_breakdown := arrField data "category_breakdown"
    risk_alerts := arrField data "risk_alerts"
    safe_to_spend := numField data "safe_to_spend"
    analysis_period := fieldOr data "analysis_period" (JVal.str "Current Month")
    advice := fieldOr data "advice" (JVal.str "")
    follow_up_response := fieldOr data "follow_up_response" (JVal.str "") }

/-- The conversational branch of parseAgentResponse, built from the raw
(pre-unwrap) result value. -/
def mkConversationalReport (raw : JVal) : FinancialReport :=
  { follow_up_response := rawText raw
    income_summary := JVal.null
    credit_cards := []
    category_breakdown := []
    risk_alerts := []
    safe_to_spend := 0
    analysis_period := JVal.str ""
    advice := JVal.str ""
    report_type := JVal.str "" }

/-- parseAgentResponse from page.tsx lines 224-268. -/
def parseAgentResponse (env : AgentEnvelope) : Option FinancialReport :=
  if env.success = false then none
  else
    match env.response with
    | none => none
    | some resp =>
      match resp.result with
      | none => none
      | some raw =>
        if jvTruthy raw = false then none
        else
          let data := unwrapData raw
          if structTrigger data = true then some (mkStructuredReport data)
          else some (mkConversationalReport raw)

/-- A successful envelope carrying the given result payload. -/
def mkEnv (raw : JVal) : AgentEnvelope :=
  { success := true, response := some { result := some raw, message := none } }

/-! ### Data model of the page component -/

/-- A credit card line of the user profile. -/
structure CreditCardProfile where
  name : String
  limit : Rat
deriving DecidableEq

/-- An EMI/loan line of the user profile. -/
structure EMIProfile where
  name : String
  amount : Rat
deriving DecidableEq

/-- Fixed monthly expenses of the user profile. -/
structure FixedExpenses where
  rent : Rat
  utilities : Rat
  insurance : Rat
deriving DecidableEq

/-- The user-supplied FinancialProfile. -/
structure FinancialProfile where
  salary : Rat
  cards : List CreditCardProfile
  emis : List EMIProfile
  fixedExpenses : FixedExpenses
deriving DecidableEq

/-- One snapshot in the analysis history. -/
structure HistoryEntry where
  id : String
  date : String
  report : FinancialReport
  profile : Option FinancialProfile
deriving DecidableEq

/-- Chat message roles. -/
inductive ChatRole where
  | user
  | agent
deriving DecidableEq

/-- One chat message; content keeps its runtime JVal form because the source
only casts the picked value to string. -/
structure ChatMessage where
  role : ChatRole
  content : JVal
  timestamp : Nat
deriving DecidableEq

/-- The navigation tabs of the page. -/
inductive Tab where
  | dashboard
  | profile
  | history
deriving DecidableEq

def MANAGER_AGENT_ID : String := "6992c20848cf09a10ff22202"

def SAMPLE_PROFILE : FinancialProfile :=
  { salary := 8500
    cards := [{ name := "Chase Sapphire", limit := 15000 }, { name := "Amex Gold", limit := 10000 }]
    emis := [{ name := "Car Loan", amount := 450 }, { name := "Student Loan", amount := 280 }]
    fixedExpenses := { rent := 1800, utilities := 220, insurance := 180 } }

def SAMPLE_REPORT : FinancialReport :=
  { report_type := JVal.str "Monthly Financial Analysis"
    income_summary := JVal.obj
      [("net_income", JVal.num 8500), ("total_fixed_expenses", JVal.num 2200),
       ("total_variable_expenses", JVal.num 2850), ("total_emi", JVal.num 730),
       ("total_outflow", JVal.num 5780), ("savings", JVal.num 2720),
       ("savings_rate", JVal.num 32)]
    credit_cards :=
      [JVal.obj [("card_name", JVal.str "Chase Sapphire"), ("limit", JVal.num 15000),
                 ("spend", JVal.num 3200), ("utilization_percent", JVal.num (213/10))],
       JVal.obj [("card_name", JVal.str "Amex Gold"), ("limit", JVal.num 10000),
                 ("spend", JVal.num 1850), ("utilization_percent", JVal.num (185/10))]]
    category_breakdown :=
      [JVal.obj [("category", JVal.str "Groceries"), ("amount", JVal.num 680),
                 ("percent_of_total", JVal.num (132/10)), ("transaction_count", JVal.num 12)],
       JVal.obj [("category", JVal.str "Dining Out"), ("amount", JVal.num 420),
                 ("percent_of_total", JVal.num (81/10)), ("transaction_count", JVal.num 8)],
       JVal.obj [("category", JVal.str "Transportation"), ("amount", JVal.num 310),
                 ("percent_of_total", JVal.num 6), ("transaction_count", JVal.num 15)],
       JVal.obj [("category", JVal.str "Entertainment"), ("amount", JVal.num 280),
                 ("percent_of_total", JVal.num (54/10)), ("transaction_count", JVal.num 6)],
       JVal.obj [("category", JVal.str "Shopping"), ("amount", JVal.num 560),
                 ("percent_of_total", JVal.num (108/10)), ("transaction_count", JVal.num 9)],
       JVal.obj [("category", JVal.str "Subscriptions"), ("amount", JVal.num 120),
                 ("percent_of_total", JVal.num (23/10)), ("transaction_count", JVal.num 5)],
       JVal.obj [("category", JVal.str "Healthcare"), ("amount", JVal.num 240),
                 ("percent_of_total", JVal.num (46/10)), ("transaction_count", JVal.num 3)],
       JVal.obj [("category", JVal.str "Travel"), ("amount", JVal.num 240),
                 ("percent_of_total", JVal.num (46/10)), ("transaction_count", JVal.num 2)]]
    risk_alerts :=
      [JVal.obj [("alert_type", JVal.str "Spending Trend"),
                 ("message", JVal.str "Dining expenses increased 18% compared to last month"),
                 ("severity", JVal.str "medium")],
       JVal.obj [("alert_type", JVal.str "Budget Warning"),
                 ("message", JVal.str "Entertainment spending is approaching your monthly average"),
                 ("severity", JVal.str "low")],
       JVal.obj [("alert_type", JVal.str "Credit Alert"),
                 ("message", JVal.str "Chase Sapphire approaching 25% utilization threshold"),
                 ("severity", JVal.str "high")]]
    safe_to_spend := 1420
    analysis_period := JVal.str "January 2026"
    advice := JVal.str "Your savings rate of 32% is excellent. Consider reducing dining expenses which increased 18% this month. Your credit utilization remains healthy across both cards. Continue maintaining this disciplined approach to build your emergency fund."
    follow_up_response := JVal.str "" }

/-! ### Orchestrator state

The page component state.  Outstanding gateway calls are tracked explicitly:
pendingAnalysis holds the profile captured by each in-flight handleAnalyze
closure, pendingChat counts in-flight handleChatSend calls. -/

structure AppState where
  activeTab : Tab
  profile : Option FinancialProfile
  hasProfile : Bool
  report : Option FinancialReport
  loading : Bool
  error : Option String
  chatOpen : Bool
  chatMessages : List ChatMessage
  chatLoading : Bool
  history : List HistoryEntry
  sampleMode : Bool
  activeAgentId : Option String
  sessionId : String
  pendingAnalysis : List FinancialProfile
  pendingChat : Nat
deriving DecidableEq

/-- The durable key/value store contents at startup: the decoded value of the
finance_history key when present and a well-formed array, and the decoded
value of the finance_profile key when present and parseable. -/
structure StoredState where
  storedHistory : Option (List HistoryEntry)
  storedProfile : Option FinancialProfile
deriving DecidableEq

/-- The startup effect of the page: generate a session id, restore history
when the stored value is an array, restore the profile when parsed?.salary
is truthy. -/
def initState (st : StoredState) (sid : String) : AppState :=
  let restored : Option FinancialProfile :=
    match st.storedProfile with
    | some pr => if pr.salary = 0 then none else some pr
    | none => none
  { activeTab := Tab.dashboard
    profile := restored
    hasProfile := restored.isSome
    report := none
    loading := false
    error := none
    chatOpen := false
    chatMessages := []
    chatLoading := false
    history := st.storedHistory.getD []
    sampleMode := false
    activeAgentId := none
    sessionId := sid
    pendingAnalysis := []
    pendingChat := 0 }

/-- The entry built by saveHistory from Date.now() and the formatted date. -/
def mkHistoryEntry (now : Nat) (dateStr : String) (r : FinancialReport)
    (p : FinancialProfile) : HistoryEntry :=
  { id := toString now, date := dateStr, report := r, profile := some p }

/-- saveHistory from page.tsx lines 1051-1067: prepend the new entry and
truncate to the first 20 (storage write failures are swallowed and do not
affect the in-memory list). -/
def saveHistory (entry : HistoryEntry) (prev : List HistoryEntry) : List HistoryEntry :=
  (entry :: prev).take 20

/-- A sequence of saveHistory calls applied in order (oldest first). -/
def runSaves (h0 : List HistoryEntry) (es : List HistoryEntry) : List HistoryEntry :=
  es.foldl (fun h e => saveHistory e h) h0

/-- The synchronous head of handleAnalyze: bail out without a profile,
otherwise clear the error, raise the busy flag, mark the manager agent
active and issue the gateway request capturing the current profile. -/
def handleAnalyzeStart (s : AppState) : AppState :=
  match s.profile with
  | none => s
  | some p =>
    { s with loading := true, error := none, activeAgentId := some MANAGER_AGENT_ID,
             pendingAnalysis := s.pendingAnalysis ++ [p] }

/-- The resumption of handleAnalyze once the gateway call settles: res is
some envelope on a normal return and none when callAIAgent threw (failMsg
is the thrown message).  now and dateStr model Date.now() and the formatted
date used by saveHistory. -/
def handleAnalyzeDone (s : AppState) (res : Option AgentEnvelope) (failMsg : String)
    (now : Nat) (dateStr : String) : AppState :=
  match s.pendingAnalysis with
  | [] => s
  | p :: rest =>
    let s0 := { s with pendingAnalysis := rest, loading := false, activeAgentId := none }
    match res with
    | none => { s0 with error := some failMsg }
    | some env =>
      match parseAgentResponse env with
      | some r =>
        { s0 with report := some r,
                  history := saveHistory (mkHistoryEntry now dateStr r p) s.history }
      | none => { s0 with error := some "Could not parse the financial analysis. Please try again." }

/-- The synchronous head of handleChatSend: optimistically append the user
message, raise the chat busy flag, mark the manager agent active and issue
the gateway request. -/
def handleChatSend (s : AppState) (msg : String) (now : Nat) : AppState :=
  { s with chatMessages :=
             s.chatMessages ++ [{ role := ChatRole.user, content := JVal.str msg, timestamp := now }],
           chatLoading := true, activeAgentId := some MANAGER_AGENT_ID,
           pendingChat := s.pendingChat + 1 }

/-- The hard-coded chat fallback when the reply yields no usable text. -/
def chatUnableText : String := "I was unable to process your request. Please try again."

/-- result?.response?.message with the final hard-coded fallback. -/
def chatMessageFallback (env : AgentEnvelope) : JVal :=
  match env.response with
  | some resp =>
    match resp.message with
    | some m => if m.isEmpty then JVal.str chatUnableText else JVal.str m
    | none => JVal.str chatUnableText
  | none => JVal.str chatUnableText

/-- parsed?.follow_up_response || parsed?.advice || result?.response?.message
|| the hard-coded fallback (JavaScript first-truthy selection). -/
def chatResponseText (env : AgentEnvelope) (parsed : Option FinancialReport) : JVal :=
  match parsed with
  | some r =>
    if jvTruthy r.follow_up_response then r.follow_up_response
    else if jvTruthy r.advice then r.advice
    else chatMessageFallback env
  | none => chatMessageFallback env

/-- The resumption of handleChatSend: append exactly one agent message, and
replace the active report only when parsed?.income_summary is truthy; the
catch branch appends the hard-coded error message.  History is never
touched. -/
def handleChatDone (s : AppState) (res : Option AgentEnvelope) (now : Nat) : AppState :=
  match s.pendingChat with
  | 0 => s
  | n + 1 =>
    let s0 := { s with pendingChat := n, chatLoading := false, activeAgentId := none }
    match res with
    | none =>
      { s0 with chatMessages :=
          s.chatMessages ++
            [{ role := ChatRole.agent,
               content := JVal.str "Sorry, an error occurred. Please try again.",
               timestamp := now }] }
    | some env =>
      let parsed := parseAgentResponse env
      let s1 :=
        { s0 with chatMessages :=
            s.chatMessages ++
              [{ role := ChatRole.agent, content := chatResponseText env parsed,
                 timestamp := now }] }
      match parsed with
      | some r => if jvTruthy r.income_summary then { s1 with report := some r } else s1
      | none => s1

/-- handleSaveProfile: adopt the profile wholesale and return to the
dashboard (the storage write is swallowed on failure). -/
def handleSaveProfile (s : AppState) (p : FinancialProfile) : AppState :=
  { s with profile := some p, hasProfile := true, activeTab := Tab.dashboard }

/-- The Save and Analyze button of ProfileForm is disabled while
form.salary is not positive, so saving only fires for salary > 0. -/
def clickSaveProfile (s : AppState) (p : FinancialProfile) : AppState :=
  if 0 < p.salary then handleSaveProfile s p else s

/-- handleViewHistoryEntry: replace the active report, adopt the snapshot
profile when the entry carries one, and switch to the dashboard. -/
def handleViewHistoryEntry (s : AppState) (e : HistoryEntry) : AppState :=
  let s1 := { s with report := some e.report, activeTab := Tab.dashboard }
  match e.profile with
  | some p => { s1 with profile := some p, hasProfile := true }
  | none => s1

/-- The HistoryView only offers cards for entries of the current history. -/
def clickHistoryEntry (s : AppState) (e : HistoryEntry) : AppState :=
  if e ∈ s.history then handleViewHistoryEntry s e else s

/-- handleSampleToggle. -/
def handleSampleToggle (s : AppState) (checked : Bool) : AppState :=
  if checked then
    let s1 :=
      if s.hasProfile then s
      else { s with profile := some SAMPLE_PROFILE, hasProfile := true }
    { s1 with sampleMode := true, report := some SAMPLE_REPORT }
  else { s with sampleMode := false, report := none }

/-- Whether some rendered, enabled control of DashboardView would invoke
onAnalyze for the given props: the Try Again button of the error box (shown
whenever an error is displayed), the Analyze call-to-action (shown when not
loading and no report), or the Re-analyze button (shown when not loading
and the report has a truthy report_type). -/
def dashAnalyzeEnabled (tab : Tab) (loading : Bool) (error : Option String)
    (report : Option FinancialReport) : Bool :=
  if tab = Tab.dashboard then
    error.isSome ||
      (!loading && report.isNone) ||
      (!loading &&
        (match report with
         | some r => jvTruthy r.report_type
         | none => false))
  else false

/-- Whether the page as rendered for state s exposes an enabled analyze
trigger.  In the no-profile setup branch DashboardView is only mounted in
sample mode, and there it receives SAMPLE_REPORT, loading := false and
error := none as props. -/
def canTriggerAnalyze (s : AppState) : Bool :=
  if s.hasProfile = false ∧ s.activeTab ≠ Tab.profile then
    s.sampleMode && dashAnalyzeEnabled s.activeTab false none (some SAMPLE_REPORT)
  else if s.activeTab = Tab.profile then false
  else dashAnalyzeEnabled s.activeTab s.loading s.error s.report

/-- A user click on an analyze affordance: runs handleAnalyze only when some
rendered, enabled control exposes it. -/
def clickAnalyze (s : AppState) : AppState :=
  if canTriggerAnalyze s then handleAnalyzeStart s else s

/-- A user submit in the chat input: ChatPanel ignores it while the panel is
closed, the trimmed text is empty, or a chat round-trip is in flight. -/
def clickChatSend (s : AppState) (msg : String) (now : Nat) : AppState :=
  if s.chatOpen && !msg.isEmpty && !s.chatLoading then handleChatSend s msg now else s

/-- A click on one of the suggested questions, which are only rendered while
the chat log is empty and call onSend directly. -/
def clickSuggestion (s : AppState) (msg : String) (now : Nat) : AppState :=
  if s.chatOpen && s.chatMessages.isEmpty then handleChatSend s msg now else s

/-- The orchestrator events: user interactions plus the resumptions of the
two kinds of in-flight gateway calls. -/
inductive Event where
  | clickAnalyze
  | analyzeDone (res : Option AgentEnvelope) (failMsg : String) (now : Nat) (dateStr : String)
  | clickChatSend (msg : String) (now : Nat)
  | clickSuggestion (msg : String) (now : Nat)
  | chatDone (res : Option AgentEnvelope) (now : Nat)
  | saveProfileBtn (p : FinancialProfile)
  | selectHistoryEntry (e : HistoryEntry)
  | toggleSample (b : Bool)
  | setTab (t : Tab)
  | setChatOpen (b : Bool)

/-- One orchestrator step. -/
def step (s : AppState) : Event → AppState
  | Event.clickAnalyze => clickAnalyze s
  | Event.analyzeDone res failMsg now dateStr => handleAnalyzeDone s res failMsg now dateStr
  | Event.clickChatSend msg now => clickChatSend s msg now
  | Event.clickSuggestion msg now => clickSuggestion s msg now
  | Event.chatDone res now => handleChatDone s res now
  | Event.saveProfileBtn p => clickSaveProfile s p
  | Event.selectHistoryEntry e => clickHistoryEntry s e
  | Event.toggleSample b => handleSampleToggle s b
  | Event.setTab t => { s with activeTab := t }
  | Event.setChatOpen b => { s with chatOpen := b }

/-- The state reached from startup stored contents after a list of events. -/
def run (st : StoredState) (sid : String) (evs : List Event) : AppState :=
  evs.foldl step (initState st sid)

/-! ### Basic lemmas about the normalizer pieces -/

theorem fieldOr_of_some {d : JVal} {k : String} {v : JVal} (dflt : JVal)
    (h : getField d k = some v) (hv : v ≠ JVal.null) : fieldOr d k dflt = v := by
  unfold fieldOr
  rw [h]
  cases v with
  | null => exact absurd rfl hv
  | bool b => rfl
  | num q => rfl
  | str s => rfl
  | arr xs => rfl
  | obj fs => rfl

theorem fieldOr_of_none {d : JVal} {k : String} (dflt : JVal)
    (h : getField d k = none) : fieldOr d k dflt = dflt := by
  simp only [fieldOr, h]

theorem fieldOr_of_null {d : JVal} {k : String} (dflt : JVal)
    (h : getField d k = some JVal.null) : fieldOr d k dflt = dflt := by
  simp only [fieldOr, h]

theorem arrField_of_arr {d : JVal} {k : String} {xs : List JVal}
    (h : getField d k = some (JVal.arr xs)) : arrField d k = xs := by
  simp only [arrField, h]

theorem arrField_of_not_arr {d : JVal} {k : String}
    (h : ∀ xs, getField d k ≠ some (JVal.arr xs)) : arrField d k = [] := by
  unfold arrField
  cases hg : getField d k with
  | none => rfl
  | some v =>
    cases v with
    | arr xs => exact absurd hg (h xs)
    | null => rfl
    | bool b => rfl
    | num q => rfl
    | str s => rfl
    | obj fs => rfl

theorem numField_of_num {d : JVal} {k : String} {q : Rat}
    (h : getField d k = some (JVal.num q)) : numField d k = q := by
  simp only [numField, h]

theorem numField_of_not_num {d : JVal} {k : String}
    (h : ∀ q, getField d k ≠ some (JVal.num q)) : numField d k = 0 := by
  unfold numField
  cases hg : getField d k with
  | none => rfl
  | some v =>
    cases v with
    | num q => exact absurd hg (h q)
    | null => rfl
    | bool b => rfl
    | str s => rfl
    | arr xs => rfl
    | obj fs => rfl

theorem rawText_of_not_str {raw : JVal} (h : isStr raw = false) :
    rawText raw = fieldOr raw "text" (fieldOr raw "message" (JVal.str (stringify raw))) := by
  cases raw with
  | str s => simp [isStr] at h
  | null => rfl
  | bool b => rfl
  | num q => rfl
  | arr xs => rfl
  | obj fs => rfl

theorem parse_structured {env : AgentEnvelope} {resp : EnvResponse} {raw : JVal}
    (hs : env.success = true) (hr : env.response = some resp)
    (hres : resp.result = some raw) (htr : jvTruthy raw = true)
    (ht : structTrigger (unwrapData raw) = true) :
    parseAgentResponse env = some (mkStructuredReport (unwrapData raw)) := by
  simp [parseAgentResponse, hs, hr, hres, htr, ht]

theorem parse_conversational {env : AgentEnvelope} {resp : EnvResponse} {raw : JVal}
    (hs : env.success = true) (hr : env.response = some resp)
    (hres : resp.result = some raw) (htr : jvTruthy raw = true)
    (ht : structTrigger (unwrapData raw) = false) :
    parseAgentResponse env = some (mkConversationalReport raw) := by
  simp [parseAgentResponse, hs, hr, hres, htr, ht]

theorem parse_none_of_failure {env : AgentEnvelope} (hs : env.success = false) :
    parseAgentResponse env = none := by
  simp [parseAgentResponse, hs]

theorem parse_none_of_no_response {env : AgentEnvelope} (h : env.response = none) :
    parseAgentResponse env = none := by
  simp [parseAgentResponse, h]

theorem parse_none_of_no_result {env : AgentEnvelope} {resp : EnvResponse}
    (hr : env.response = some resp) (h : resp.result = none) :
    parseAgentResponse env = none := by
  simp [parseAgentResponse, hr, h]

/-! ### Lemmas about the history store -/

theorem take_append_take {α : Type} (l xs : List α) (n : Nat) :
    (l ++ xs.take n).take n = (l ++ xs).take n := by
  rw [List.take_append_eq_append_take, List.take_append_eq_append_take, List.take_take]
  congr 1
  rw [Nat.min_eq_left (Nat.sub_le n l.length)]

theorem runSaves_eq (es : List HistoryEntry) (h0 : List HistoryEntry)
    (h20 : h0.length ≤ 20) : runSaves h0 es = (es.reverse ++ h0).take 20 := by
  induction es generalizing h0 with
  | nil => simp [runSaves, List.take_of_length_le h20]
  | cons e es ih =>
    have hstep : runSaves h0 (e :: es) = runSaves ((e :: h0).take 20) es := rfl
    have hlen : ((e :: h0).take 20).length ≤ 20 := by
      simp [List.length_take]
    rw [hstep, ih _ hlen, take_append_take, List.reverse_cons, List.append_assoc]
    rfl

/-! ### The one-in-flight invariant of the orchestrator -/

/-- Relation between the analysis busy flag, the pending analysis request,
the displayed error and the profile presence flag, preserved by every
orchestrator step. -/
def InvA (s : AppState) : Prop :=
  s.pendingAnalysis.length ≤ 1 ∧
  s.loading = !s.pendingAnalysis.isEmpty ∧
  (s.loading = true → s.error = none) ∧
  (s.hasProfile = false → s.profile = none)

theorem dashAnalyzeEnabled_cases {tab : Tab} {loading : Bool} {error : Option String}
    {report : Option FinancialReport}
    (hd : dashAnalyzeEnabled tab loading error report = true) :
    error.isSome = true ∨ loading = false := by
  unfold dashAnalyzeEnabled at hd
  split at hd
  · simp only [Bool.or_eq_true, Bool.and_eq_true, Bool.not_eq_true'] at hd
    rcases hd with (h | h) | h
    · exact Or.inl h
    · exact Or.inr h.1
    · exact Or.inr h.1
  · exact absurd hd (by simp)

theorem canTrigger_cases {s : AppState} (hct : canTriggerAnalyze s = true) :
    s.hasProfile = false ∨ s.error.isSome = true ∨ s.loading = false := by
  unfold canTriggerAnalyze at hct
  split at hct
  · exact Or.inl (by assumption : s.hasProfile = false ∧ s.activeTab ≠ Tab.profile).1
  · split at hct
    · exact absurd hct (by simp)
    · exact Or.inr (dashAnalyzeEnabled_cases hct)

theorem invA_init (st : StoredState) (sid : String) : InvA (initState st sid) := by
  refine ⟨by simp [initState], by simp [initState], by simp [initState], ?_⟩
  intro h
  simp only [initState] at h ⊢
  cases hsp : st.storedProfile with
  | none => simp [hsp]
  | some pr =>
    simp only [hsp] at h ⊢
    split at h
    · split
      · rfl
      · simp_all
    · simp_all

theorem invA_step (s : AppState) (e : Event) (h : InvA s) : InvA (step s e) := by
  obtain ⟨h1, h2, h3, h4⟩ := h
  cases e with
  | clickAnalyze =>
    simp only [step, clickAnalyze]
    split
    case isFalse => exact ⟨h1, h2, h3, h4⟩
    case isTrue hct =>
      unfold handleAnalyzeStart
      cases hp : s.profile with
      | none => exact ⟨h1, h2, h3, h4⟩
      | some p =>
        dsimp only
        have hpe : s.pendingAnalysis = [] := by
          have hload : s.loading = false := by
            rcases canTrigger_cases hct with hf | he | hl
            · rw [h4 hf] at hp; exact absurd hp (by simp)
            · cases hLoad : s.loading with
              | false => rfl
              | true => rw [h3 hLoad] at he; exact absurd he (by simp)
            · exact hl
          rw [hload] at h2
          have h2' := h2.symm
          rw [Bool.not_eq_false'] at h2'
          exact List.isEmpty_iff.mp h2'
        refine ⟨?_, ?_, ?_, ?_⟩
        · simp [hpe]
        · simp [hpe]
        · intro _; rfl
        · intro hf
          rw [h4 hf] at hp
          exact Option.noConfusion hp
  | analyzeDone res failMsg now dateStr =>
    simp only [step]
    unfold handleAnalyzeDone
    cases hpe : s.pendingAnalysis with
    | nil => exact ⟨h1, h2, h3, h4⟩
    | cons p rest =>
      have hrest : rest = [] := by
        rw [hpe] at h1
        cases rest with
        | nil => rfl
        | cons q qs => simp at h1
      subst hrest
      cases res with
      | none =>
        dsimp only
        exact ⟨by simp, by simp, by simp, h4⟩
      | some env =>
        dsimp only
        cases hpr : parseAgentResponse env with
        | some r =>
          dsimp only
          exact ⟨by simp, by simp, by simp, h4⟩
        | none =>
          dsimp only
          exact ⟨by simp, by simp, by simp, h4⟩
  | clickChatSend msg now =>
    simp only [step, clickChatSend]
    split
    · exact ⟨h1, h2, h3, h4⟩
    · exact ⟨h1, h2, h3, h4⟩
  | clickSuggestion msg now =>
    simp only [step, clickSuggestion]
    split
    · exact ⟨h1, h2, h3, h4⟩
    · exact ⟨h1, h2, h3, h4⟩
  | chatDone res now =>
    simp only [step]
    unfold handleChatDone
    cases s.pendingChat with
    | zero => exact ⟨h1, h2, h3, h4⟩
    | succ n =>
      cases res with
      | none =>
        dsimp only
        exact ⟨h1, h2, h3, h4⟩
      | some env =>
        dsimp only
        cases hpr : parseAgentResponse env with
        | none =>
          dsimp only
          exact ⟨h1, h2, h3, h4⟩
        | some r =>
          dsimp only
          split
          · exact ⟨h1, h2, h3, h4⟩
          · exact ⟨h1, h2, h3, h4⟩
  | saveProfileBtn p =>
    simp only [step, clickSaveProfile]
    split
    · exact ⟨h1, h2, h3, by simp [handleSaveProfile]⟩
    · exact ⟨h1, h2, h3, h4⟩
  | selectHistoryEntry e =>
    simp only [step, clickHistoryEntry]
    split
    · unfold handleViewHistoryEntry
      cases e.profile with
      | some p =>
        dsimp only
        exact ⟨h1, h2, h3, by simp⟩
      | none =>
        dsimp only
        exact ⟨h1, h2, h3, h4⟩
    · exact ⟨h1, h2, h3, h4⟩
  | toggleSample b =>
    simp only [step]
    unfold handleSampleToggle
    cases b with
    | true =>
      rw [if_pos rfl]
      by_cases hhp : s.hasProfile = true
      · rw [if_pos hhp]
        exact ⟨h1, h2, h3, h4⟩
      · rw [if_neg hhp]
        exact ⟨h1, h2, h3, by simp⟩
    | false =>
      rw [if_neg (by simp)]
      exact ⟨h1, h2, h3, h4⟩
  | setTab t => exact ⟨h1, h2, h3, h4⟩
  | setChatOpen b => exact ⟨h1, h2, h3, h4⟩

theorem invA_run (st : StoredState) (sid : String) (evs : List Event) :
    InvA (run st sid evs) := by
  suffices hgen : ∀ (l : List Event) (s : AppState), InvA s → InvA (l.foldl step s) by
    exact hgen evs (initState st sid) (invA_init st sid)
  intro l
  induction l with
  | nil => intro s hs; exact hs
  | cons e l ih => intro s hs; exact ih (step s e) (invA_step s e hs)

/-! ### The complete-profile invariant -/

/-- Well-formed durable store contents: every stored profile, and every
profile snapshot inside a stored history entry, has a positive salary.
This is exactly what the application itself ever writes; a corrupted store
can violate it, which is what the C9 counterexample exploits. -/
def WFStore (st : StoredState) : Prop :=
  (∀ p, st.storedProfile = some p → 0 < p.salary) ∧
  (∀ e, e ∈ st.storedHistory.getD [] → ∀ p, e.profile = some p → 0 < p.salary)

/-- Positivity of the salary of the active profile, of every history
snapshot and of every captured in-flight analysis profile. -/
def InvP (s : AppState) : Prop :=
  (∀ p, s.profile = some p → 0 < p.salary) ∧
  (∀ e, e ∈ s.history → ∀ p, e.profile = some p → 0 < p.salary) ∧
  (∀ p, p ∈ s.pendingAnalysis → 0 < p.salary)

theorem invP_init (st : StoredState) (sid : String) (hwf : WFStore st) :
    InvP (initState st sid) := by
  obtain ⟨hw1, hw2⟩ := hwf
  refine ⟨?_, ?_, ?_⟩
  · intro p hp
    simp only [initState] at hp
    cases hsp : st.storedProfile with
    | none =>
      rw [hsp] at hp
      dsimp only at hp
      exact Option.noConfusion hp
    | some pr =>
      rw [hsp] at hp
      dsimp only at hp
      by_cases hz : pr.salary = 0
      · rw [if_pos hz] at hp
        exact Option.noConfusion hp
      · rw [if_neg hz] at hp
        exact (Option.some.inj hp) ▸ hw1 pr hsp
  · intro e he p hp
    simp only [initState] at he
    exact hw2 e he p hp
  · intro p hp
    simp only [initState] at hp
    exact absurd hp (List.not_mem_nil p)

theorem invP_step (s : AppState) (e : Event) (h : InvP s) : InvP (step s e) := by
  obtain ⟨h1, h2, h3⟩ := h
  cases e with
  | clickAnalyze =>
    simp only [step, clickAnalyze]
    split
    case isFalse => exact ⟨h1, h2, h3⟩
    case isTrue hct =>
      unfold handleAnalyzeStart
      cases hp : s.profile with
      | none => exact ⟨h1, h2, h3⟩
      | some p =>
        dsimp only
        refine ⟨fun q hq => h1 q (hp.trans hq), h2, ?_⟩
        intro q hq
        rw [List.mem_append] at hq
        rcases hq with hq | hq
        · exact h3 q hq
        · rw [List.mem_singleton] at hq
          exact hq ▸ h1 p hp
  | analyzeDone res failMsg now dateStr =>
    simp only [step]
    unfold handleAnalyzeDone
    cases hpe : s.pendingAnalysis with
    | nil => exact ⟨h1, h2, h3⟩
    | cons p rest =>
      have hpsal : 0 < p.salary := h3 p (by rw [hpe]; exact List.mem_cons_self p rest)
      have hrest : ∀ q, q ∈ rest → 0 < q.salary := by
        intro q hq
        exact h3 q (by rw [hpe]; exact List.mem_cons_of_mem p hq)
      cases res with
      | none =>
        dsimp only
        exact ⟨h1, h2, hrest⟩
      | some env =>
        dsimp only
        cases hpr : parseAgentResponse env with
        | some r =>
          dsimp only
          refine ⟨h1, ?_, hrest⟩
          intro e he q hq
          unfold saveHistory at he
          have he' := List.mem_of_mem_take he
          rw [List.mem_cons] at he'
          rcases he' with he' | he'
          · rw [he'] at hq
            simp only [mkHistoryEntry] at hq
            exact (Option.some.inj hq) ▸ hpsal
          · exact h2 e he' q hq
        | none =>
          dsimp only
          exact ⟨h1, h2, hrest⟩
  | clickChatSend msg now =>
    simp only [step, clickChatSend]
    split
    · exact ⟨h1, h2, h3⟩
    · exact ⟨h1, h2, h3⟩
  | clickSuggestion msg now =>
    simp only [step, clickSuggestion]
    split
    · exact ⟨h1, h2, h3⟩
    · exact ⟨h1, h2, h3⟩
  | chatDone res now =>
    simp only [step]
    unfold handleChatDone
    cases s.pendingChat with
    | zero => exact ⟨h1, h2, h3⟩
    | succ n =>
      cases res with
      | none =>
        dsimp only
        exact ⟨h1, h2, h3⟩
      | some env =>
        dsimp only
        cases hpr : parseAgentResponse env with
        | none =>
          dsimp only
          exact ⟨h1, h2, h3⟩
        | some r =>
          dsimp only
          split
          · exact ⟨h1, h2, h3⟩
          · exact ⟨h1, h2, h3⟩
  | saveProfileBtn p =>
    simp only [step, clickSaveProfile]
    split
    case isTrue hsal =>
      unfold handleSaveProfile
      refine ⟨?_, h2, h3⟩
      intro q hq
      exact (Option.some.inj hq) ▸ hsal
    case isFalse => exact ⟨h1, h2, h3⟩
  | selectHistoryEntry e =>
    simp only [step, clickHistoryEntry]
    split
    case isTrue hmem =>
      unfold handleViewHistoryEntry
      cases hep : e.profile with
      | some p =>
        dsimp only
        refine ⟨?_, h2, h3⟩
        intro q hq
        exact (Option.some.inj hq) ▸ h2 e hmem p hep
      | none =>
        dsimp only
        exact ⟨h1, h2, h3⟩
    case isFalse => exact ⟨h1, h2, h3⟩
  | toggleSample b =>
    simp only [step]
    unfold handleSampleToggle
    cases b with
    | true =>
      rw [if_pos rfl]
      by_cases hhp : s.hasProfile = true
      · rw [if_pos hhp]
        exact ⟨h1, h2, h3⟩
      · rw [if_neg hhp]
        dsimp only
        refine ⟨?_, h2, h3⟩
        intro q hq
        have hq' : SAMPLE_PROFILE = q := Option.some.inj hq
        rw [← hq']
        norm_num [SAMPLE_PROFILE]
    | false =>
      rw [if_neg (by simp)]
      exact ⟨h1, h2, h3⟩
  | setTab t => exact ⟨h1, h2, h3⟩
  | setChatOpen b => exact ⟨h1, h2, h3⟩

theorem invP_run (st : StoredState) (sid : String) (evs : List Event)
    (hwf : WFStore st) : InvP (run st sid evs) := by
  suffices hgen : ∀ (l : List Event) (s : AppState), InvP s → InvP (l.foldl step s) by
    exact hgen evs (initState st sid) (invP_init st sid hwf)
  intro l
  induction l with
  | nil => intro s hs; exact hs
  | cons e l ih => intro s hs; exact ih (step s e) (invP_step s e hs)

/-! ### Specification predicates for the two normalizer modes -/

/-- The field contract of a structured-mode report for unwrapped payload
data: income_summary copied when present and non-null (null when absent),
array fields copied exactly when arrays and empty otherwise, safe_to_spend
copied exactly when a number and 0 otherwise, string fields falling back to
their named placeholders when absent. -/
def structuredReportSpec (data : JVal) (r : FinancialReport) : Prop :=
  (∀ v, getField data "income_summary" = some v → v ≠ JVal.null → r.income_summary = v) ∧
  (getField data "income_summary" = none → r.income_summary = JVal.null) ∧
  (∀ xs, getField data "credit_cards" = some (JVal.arr xs) → r.credit_cards = xs) ∧
  ((∀ xs, getField data "credit_cards" ≠ some (JVal.arr xs)) → r.credit_cards = []) ∧
  (∀ xs, getField data "category_breakdown" = some (JVal.arr xs) → r.category_breakdown = xs) ∧
  ((∀ xs, getField data "category_breakdown" ≠ some (JVal.arr xs)) → r.category_breakdown = []) ∧
  (∀ xs, getField data "risk_alerts" = some (JVal.arr xs) → r.risk_alerts = xs) ∧
  ((∀ xs, getField data "risk_alerts" ≠ some (JVal.arr xs)) → r.risk_alerts = []) ∧
  (∀ q, getField data "safe_to_spend" = some (JVal.num q) → r.safe_to_spend = q) ∧
  ((∀ q, getField data "safe_to_spend" ≠ some (JVal.num q)) → r.safe_to_spend = 0) ∧
  (getField data "report_type" = none → r.report_type = JVal.str "Monthly Analysis") ∧
  (getField data "analysis_period" = none → r.analysis_period = JVal.str "Current Month") ∧
  (getField data "advice" = none → r.advice = JVal.str "") ∧
  (getField data "follow_up_response" = none → r.follow_up_response = JVal.str "")

/-- The contract of a conversational report for raw result payload raw:
every structured field at its typed empty value and follow_up_response
selected by the priority order raw string, text field, message field,
serialization of the whole payload. -/
def conversationalSpec (raw : JVal) (r : FinancialReport) : Prop :=
  r.income_summary = JVal.null ∧ r.credit_cards = [] ∧ r.category_breakdown = [] ∧
  r.risk_alerts = [] ∧ r.safe_to_spend = 0 ∧ r.report_type = JVal.str "" ∧
  r.analysis_period = JVal.str "" ∧ r.advice = JVal.str "" ∧
  (∀ s, raw = JVal.str s → r.follow_up_response = JVal.str s) ∧
  (isStr raw = false →
    ∀ v, getField raw "text" = some v → v ≠ JVal.null → r.follow_up_response = v) ∧
  (isStr raw = false → nullishField raw "text" = true →
    ∀ v, getField raw "message" = some v → v ≠ JVal.null → r.follow_up_response = v) ∧
  (isStr raw = false → nullishField raw "text" = true → nullishField raw "message" = true →
    r.follow_up_response = JVal.str (stringify raw))

theorem fieldOr_of_nullish {d : JVal} {k : String} (dflt : JVal)
    (h : nullishField d k = true) : fieldOr d k dflt = dflt := by
  unfold nullishField at h
  cases hg : getField d k with
  | none => exact fieldOr_of_none dflt hg
  | some v =>
    cases v with
    | null => exact fieldOr_of_null dflt hg
    | bool b => rw [hg] at h; exact Bool.noConfusion h
    | num q => rw [hg] at h; exact Bool.noConfusion h
    | str s => rw [hg] at h; exact Bool.noConfusion h
    | arr xs => rw [hg] at h; exact Bool.noConfusion h
    | obj fs => rw [hg] at h; exact Bool.noConfusion h

theorem conversationalSpec_mk (raw : JVal) :
    conversationalSpec raw (mkConversationalReport raw) := by
  refine ⟨rfl, rfl, rfl, rfl, rfl, rfl, rfl, rfl, ?_, ?_, ?_, ?_⟩
  · intro s hraw
    rw [hraw]
    rfl
  · intro hns v hv hvn
    show rawText raw = v
    rw [rawText_of_not_str hns]
    exact fieldOr_of_some _ hv hvn
  · intro hns htx v hv hvn
    show rawText raw = v
    rw [rawText_of_not_str hns, fieldOr_of_nullish _ htx]
    exact fieldOr_of_some _ hv hvn
  · intro hns htx hmsg
    show rawText raw = JVal.str (stringify raw)
    rw [rawText_of_not_str hns, fieldOr_of_nullish _ htx, fieldOr_of_nullish _ hmsg]

theorem structuredReportSpec_mk (data : JVal) :
    structuredReportSpec data (mkStructuredReport data) := by
  refine ⟨?_, ?_, ?_, ?_, ?_, ?_, ?_, ?_, ?_, ?_, ?_, ?_, ?_, ?_⟩
  · intro v hv hvn
    exact fieldOr_of_some _ hv hvn
  · intro h
    exact fieldOr_of_none _ h
  · intro xs h
    exact arrField_of_arr h
  · intro h
    exact arrField_of_not_arr h
  · intro xs h
    exact arrField_of_arr h
  · intro h
    exact arrField_of_not_arr h
  · intro xs h
    exact arrField_of_arr h
  · intro h
    exact arrField_of_not_arr h
  · intro q h
    exact numField_of_num h
  · intro h
    exact numField_of_not_num h
  · intro h
    exact fieldOr_of_none _ h
  · intro h
    exact fieldOr_of_none _ h
  · intro h
    exact fieldOr_of_none _ h
  · intro h
    exact fieldOr_of_none _ h

/-! ### Concrete payloads used by witnesses and counterexamples -/

def structIncomePayload : JVal :=
  JVal.obj [("income_summary", JVal.obj [("net_income", JVal.num 5)])]

def presentNullPayload : JVal := JVal.obj [("income_summary", JVal.null)]

def mixedPayload : JVal :=
  JVal.obj [("credit_cards", JVal.arr [JVal.obj [("card_name", JVal.str "X")]])]

def wrappedStructPayload : JVal :=
  JVal.obj [("result", JVal.obj [("income_summary", JVal.num 1)])]

def doubleResultPayload : JVal :=
  JVal.obj [("result", JVal.obj [("result", JVal.obj [("income_summary", JVal.num 1)])])]

def textOnlyPayload : JVal := JVal.obj [("text", JVal.str "hello")]

/-! ### Claims about the normalizer -/

/-- C5: for every envelope with success false, and for every successful
envelope that carries no result payload (no response object, or no result
field inside it), parseAgentResponse returns null and never a default
report. -/
theorem claim_C5 (env : AgentEnvelope) :
    (env.success = false → parseAgentResponse env = none) ∧
    (env.response = none → parseAgentResponse env = none) ∧
    (∀ resp, env.response = some resp → resp.result = none →
      parseAgentResponse env = none) :=
  ⟨fun h => parse_none_of_failure h, fun h => parse_none_of_no_response h,
    fun _ hr h => parse_none_of_no_result hr h⟩

theorem claim_C5_witness :
    ({ success := false, response := none : AgentEnvelope }).success = false ∧
    parseAgentResponse { success := false, response := none } = none ∧
    parseAgentResponse { success := true, response := some { result := none, message := none } } = none :=
  ⟨rfl, (claim_C5 { success := false, response := none }).1 rfl,
    (claim_C5 { success := true, response := some { result := none, message := none } }).2.2
      { result := none, message := none } rfl rfl⟩

/-- C1 (amended): for every gateway payload that, after unwrapping, carries
at least one of income_summary, credit_cards, category_breakdown with a
truthy value (presence alone is not enough: a present but null, false, 0 or
empty-string value falls through to the conversational branch),
parseAgentResponse returns a structured report satisfying
structuredReportSpec: income_summary copied when present and non-null,
array fields copied exactly when arrays and empty otherwise, safe_to_spend
copied when a number and 0 otherwise, string fields defaulting to their
named placeholders when absent; the detection is a disjunction, hence
order-independent, and the function is total, so no such input throws. -/
theorem claim_C1 (env : AgentEnvelope) (resp : EnvResponse) (raw : JVal)
    (hs : env.success = true) (hr : env.response = some resp)
    (hres : resp.result = some raw) (htr : jvTruthy raw = true)
    (htrig : fieldTruthy (unwrapData raw) "income_summary" = true ∨
             fieldTruthy (unwrapData raw) "credit_cards" = true ∨
             fieldTruthy (unwrapData raw) "category_breakdown" = true) :
    ∃ r, parseAgentResponse env = some r ∧ structuredReportSpec (unwrapData raw) r := by
  have ht : structTrigger (unwrapData raw) = true := by
    unfold structTrigger
    rcases htrig with h | h | h <;> simp [h]
  exact ⟨mkStructuredReport (unwrapData raw), parse_structured hs hr hres htr ht,
    structuredReportSpec_mk (unwrapData raw)⟩

theorem claim_C1_witness :
    jvTruthy structIncomePayload = true ∧
    fieldTruthy (unwrapData structIncomePayload) "income_summary" = true ∧
    (∃ r, parseAgentResponse (mkEnv structIncomePayload) = some r ∧
      structuredReportSpec (unwrapData structIncomePayload) r) :=
  ⟨by decide, by decide,
    claim_C1 (mkEnv structIncomePayload) { result := some structIncomePayload, message := none }
      structIncomePayload rfl rfl rfl (by decide) (Or.inl (by decide))⟩

/-- C1 counterexample: the payload with income_summary present but null
has the key present, yet parseAgentResponse takes the conversational
branch: the absent string fields are empty rather than the named
placeholders the claim requires for this shape. -/
theorem claim_C1_counterexample :
    (getField presentNullPayload "income_summary").isSome = true ∧
    parseAgentResponse (mkEnv presentNullPayload) =
      some (mkConversationalReport presentNullPayload) ∧
    (mkConversationalReport presentNullPayload).report_type ≠ JVal.str "Monthly Analysis" ∧
    (mkConversationalReport presentNullPayload).analysis_period ≠ JVal.str "Current Month" := by
  decide

/-- C6 (amended): for every payload that, after unwrapping, exposes none of
the three structured keys with a truthy value, parseAgentResponse returns a
report whose only possibly non-default field is follow_up_response, which
is selected by the priority order raw string, text field, message field,
serialization, applied to the original pre-unwrap payload (not to the
unwrapped one). -/
theorem claim_C6 (env : AgentEnvelope) (resp : EnvResponse) (raw : JVal)
    (hs : env.success = true) (hr : env.response = some resp)
    (hres : resp.result = some raw) (htr : jvTruthy raw = true)
    (htrig : structTrigger (unwrapData raw) = false) :
    ∃ r, parseAgentResponse env = some r ∧ conversationalSpec raw r :=
  ⟨mkConversationalReport raw, parse_conversational hs hr hres htr htrig,
    conversationalSpec_mk raw⟩

theorem claim_C6_witness :
    jvTruthy textOnlyPayload = true ∧
    structTrigger (unwrapData textOnlyPayload) = false ∧
    (∃ r, parseAgentResponse (mkEnv textOnlyPayload) = some r ∧
      conversationalSpec textOnlyPayload r) :=
  ⟨by decide, by decide,
    claim_C6 (mkEnv textOnlyPayload) { result := some textOnlyPayload, message := none }
      textOnlyPayload rfl rfl rfl (by decide) (by decide)⟩

/-- C6 counterexample: a payload whose top level contains none of the three
keys (only a result wrapper) is claimed to yield a conversational report,
but parseAgentResponse unwraps the wrapper first and produces a structured
report with a non-null income_summary. -/
theorem claim_C6_counterexample :
    getField wrappedStructPayload "income_summary" = none ∧
    getField wrappedStructPayload "credit_cards" = none ∧
    getField wrappedStructPayload "category_breakdown" = none ∧
    parseAgentResponse (mkEnv wrappedStructPayload) =
      some (mkStructuredReport (JVal.obj [("income_summary", JVal.num 1)])) ∧
    (mkStructuredReport (JVal.obj [("income_summary", JVal.num 1)])).income_summary =
      JVal.num 1 := by
  decide

/-- C4 (amended): every report produced by parseAgentResponse comes from
exactly one of the two branches, decided by the truthy-key trigger on the
unwrapped payload: when the trigger fires the report is the structured
reconstruction (whose income_summary can still be null when the trigger
was an array key, so income_summary being non-null does not characterize
structured mode); otherwise the report is conversational, with every
structured field at its typed empty value and only follow_up_response
populated. -/
theorem claim_C4 (env : AgentEnvelope) (resp : EnvResponse) (raw : JVal)
    (r : FinancialReport) (hr : env.response = some resp) (hres : resp.result = some raw)
    (hp : parseAgentResponse env = some r) :
    (structTrigger (unwrapData raw) = true ∧ r = mkStructuredReport (unwrapData raw)) ∨
    (structTrigger (unwrapData raw) = false ∧ conversationalSpec raw r) := by
  cases hsucc : env.success with
  | false =>
    rw [parse_none_of_failure hsucc] at hp
    exact Option.noConfusion hp
  | true =>
    cases htr : jvTruthy raw with
    | false =>
      have hnone : parseAgentResponse env = none := by
        simp [parseAgentResponse, hsucc, hr, hres, htr]
      rw [hnone] at hp
      exact Option.noConfusion hp
    | true =>
      cases ht : structTrigger (unwrapData raw) with
      | true =>
        left
        refine ⟨rfl, ?_⟩
        rw [parse_structured hsucc hr hres htr ht] at hp
        exact (Option.some.inj hp).symm
      | false =>
        right
        refine ⟨rfl, ?_⟩
        rw [parse_conversational hsucc hr hres htr ht] at hp
        rw [← Option.some.inj hp]
        exact conversationalSpec_mk raw

theorem claim_C4_witness :
    parseAgentResponse (mkEnv structIncomePayload) =
      some (mkStructuredReport structIncomePayload) ∧
    (structTrigger (unwrapData structIncomePayload) = true ∧
      mkStructuredReport structIncomePayload =
        mkStructuredReport (unwrapData structIncomePayload)) ∨
    (structTrigger (unwrapData structIncomePayload) = false ∧
      conversationalSpec structIncomePayload (mkStructuredReport structIncomePayload)) :=
  Or.inl ⟨by decide,
    (claim_C4 (mkEnv structIncomePayload)
        { result := some structIncomePayload, message := none } structIncomePayload
        (mkStructuredReport structIncomePayload) rfl rfl (by decide)).elim
      (fun h => h.2 ▸ by decide)
      (fun h => absurd h.1 (by decide))⟩

/-- C4 counterexample: the payload carrying only a credit_cards array
yields a report that is neither structured in the claimed sense
(income_summary is null) nor conversational (credit_cards is populated and
the string fields carry the structured placeholders): the claimed
dichotomy fails. -/
theorem claim_C4_counterexample :
    parseAgentResponse (mkEnv mixedPayload) = some (mkStructuredReport mixedPayload) ∧
    (mkStructuredReport mixedPayload).income_summary = JVal.null ∧
    (mkStructuredReport mixedPayload).credit_cards ≠ [] ∧
    (mkStructuredReport mixedPayload).report_type = JVal.str "Monthly Analysis" := by
  decide

theorem getField_single_eq (k : String) (v : JVal) :
    getField (JVal.obj [(k, v)]) k = some v := by
  simp [getField, lookupField]

theorem unwrapStep_hit {d : JVal} {key : String} {v : JVal}
    (h : getField d key = some v) (ho : isObjC v = true) : unwrapStep d key = v := by
  simp [unwrapStep, h, ho]

theorem unwrapStep_miss {d : JVal} {key : String}
    (h : getField d key = none) : unwrapStep d key = d := by
  simp [unwrapStep, h]

/-- C7 (amended): parseAgentResponse unwraps at most one result wrapper
followed by at most one response wrapper, in that fixed order.  For any
object payload d without its own result/response keys that triggers
structured mode, wrapping it as result-of-response, as a single result, or
as a single response produces the same report as the bare payload; the
other combinations (result inside result, response inside response,
result inside response) are not unwrapped, as the counterexample shows. -/
theorem claim_C7 (d : JVal) (hobj : isObjC d = true)
    (hnr : getField d "result" = none) (hnp : getField d "response" = none)
    (ht : structTrigger d = true) :
    parseAgentResponse (mkEnv (JVal.obj [("result", JVal.obj [("response", d)])])) =
      parseAgentResponse (mkEnv d) ∧
    parseAgentResponse (mkEnv (JVal.obj [("result", d)])) = parseAgentResponse (mkEnv d) ∧
    parseAgentResponse (mkEnv (JVal.obj [("response", d)])) = parseAgentResponse (mkEnv d) := by
  have hud : unwrapData d = d := by
    unfold unwrapData
    rw [unwrapStep_miss hnr, unwrapStep_miss hnp]
  have hd_truthy : jvTruthy d = true := by
    cases d with
    | obj fs => rfl
    | null => exact Bool.noConfusion hobj
    | bool b => exact Bool.noConfusion hobj
    | num q => exact Bool.noConfusion hobj
    | str s => exact Bool.noConfusion hobj
    | arr xs => exact Bool.noConfusion hobj
  have hparse_d : parseAgentResponse (mkEnv d) = some (mkStructuredReport d) := by
    have hp := @parse_structured (mkEnv d) { result := some d, message := none } d
      rfl rfl rfl hd_truthy (by rw [hud]; exact ht)
    rw [hud] at hp
    exact hp
  refine ⟨?_, ?_, ?_⟩
  · have h1 : unwrapData (JVal.obj [("result", JVal.obj [("response", d)])]) = d := by
      unfold unwrapData
      rw [unwrapStep_hit (getField_single_eq "result" (JVal.obj [("response", d)])) rfl]
      rw [unwrapStep_hit (getField_single_eq "response" d) hobj]
    rw [@parse_structured (mkEnv (JVal.obj [("result", JVal.obj [("response", d)])]))
        { result := some (JVal.obj [("result", JVal.obj [("response", d)])]), message := none }
        (JVal.obj [("result", JVal.obj [("response", d)])])
        rfl rfl rfl rfl (by rw [h1]; exact ht), h1, hparse_d]
  · have h2 : unwrapData (JVal.obj [("result", d)]) = d := by
      unfold unwrapData
      rw [unwrapStep_hit (getField_single_eq "result" d) hobj]
      rw [unwrapStep_miss hnp]
    rw [@parse_structured (mkEnv (JVal.obj [("result", d)]))
        { result := some (JVal.obj [("result", d)]), message := none }
        (JVal.obj [("result", d)])
        rfl rfl rfl rfl (by rw [h2]; exact ht), h2, hparse_d]
  · have h3 : unwrapData (JVal.obj [("response", d)]) = d := by
      unfold unwrapData
      rw [@unwrapStep_miss (JVal.obj [("response", d)]) "result"
        (by simp [getField, lookupField])]
      rw [unwrapStep_hit (getField_single_eq "response" d) hobj]
    rw [@parse_structured (mkEnv (JVal.obj [("response", d)]))
        { result := some (JVal.obj [("response", d)]), message := none }
        (JVal.obj [("response", d)])
        rfl rfl rfl rfl (by rw [h3]; exact ht), h3, hparse_d]

theorem claim_C7_witness :
    isObjC structIncomePayload = true ∧
    getField structIncomePayload "result" = none ∧
    getField structIncomePayload "response" = none ∧
    structTrigger structIncomePayload = true ∧
    (parseAgentResponse
        (mkEnv (JVal.obj [("result", JVal.obj [("response", structIncomePayload)])])) =
      parseAgentResponse (mkEnv structIncomePayload) ∧
    parseAgentResponse (mkEnv (JVal.obj [("result", structIncomePayload)])) =
      parseAgentResponse (mkEnv structIncomePayload) ∧
    parseAgentResponse (mkEnv (JVal.obj [("response", structIncomePayload)])) =
      parseAgentResponse (mkEnv structIncomePayload)) :=
  ⟨by decide, by decide, by decide, by decide,
    claim_C7 structIncomePayload (by decide) (by decide) (by decide) (by decide)⟩

/-- C7 counterexample: a structured payload wrapped in two result levels is
not unwrapped past the first level, so it is treated as conversational,
unlike the bare payload which is structured: the claimed any-combination
unwrapping fails. -/
theorem claim_C7_counterexample :
    parseAgentResponse (mkEnv doubleResultPayload) =
      some (mkConversationalReport doubleResultPayload) ∧
    parseAgentResponse (mkEnv (JVal.obj [("income_summary", JVal.num 1)])) =
      some (mkStructuredReport (JVal.obj [("income_summary", JVal.num 1)])) ∧
    (mkConversationalReport doubleResultPayload).income_summary = JVal.null ∧
    (mkStructuredReport (JVal.obj [("income_summary", JVal.num 1)])).income_summary =
      JVal.num 1 ∧
    mkConversationalReport doubleResultPayload ≠
      mkStructuredReport (JVal.obj [("income_summary", JVal.num 1)]) := by
  decide

/-! ### Concrete stores, profiles and traces for the orchestrator claims -/

def emptyStore : StoredState := { storedHistory := none, storedProfile := none }

def probeProfile : FinancialProfile :=
  { salary := 1000, cards := [], emis := [],
    fixedExpenses := { rent := 0, utilities := 0, insurance := 0 } }

def negSalaryProfile : FinancialProfile :=
  { salary := -1, cards := [], emis := [],
    fixedExpenses := { rent := 0, utilities := 0, insurance := 0 } }

def corruptStore : StoredState :=
  { storedHistory := none, storedProfile := some negSalaryProfile }

def busyTrace : List Event := [Event.saveProfileBtn probeProfile, Event.clickAnalyze]

def chatBusyTrace : List Event :=
  [Event.saveProfileBtn probeProfile, Event.setChatOpen true, Event.clickChatSend "hi" 0]

theorem wfStore_empty : WFStore emptyStore := by
  refine ⟨?_, ?_⟩
  · intro p hp
    exact Option.noConfusion hp
  · intro e he p hp
    simp [emptyStore] at he

/-- A probe history of 21 pairwise distinct entries. -/
def histProbe : List HistoryEntry :=
  (List.range 21).map (fun i =>
    { id := toString i, date := "d", report := mkConversationalReport (JVal.str "x"),
      profile := none })

/-! ### Claims about the history store and the orchestrator -/

/-- C3: starting from any history within the 20-entry bound, a sequence of
successful analyses (each appending its entry through saveHistory, oldest
first) never grows the history past 20 entries; once more than 20 entries
have been appended the history is exactly the 20 most recent entries in
newest-first order (hence contiguous, with no gaps), and it has no
duplicates whenever the time-derived entry ids are pairwise distinct. -/
theorem claim_C3 (h0 es : List HistoryEntry) (hlen : h0.length ≤ 20) :
    (∀ k, (runSaves h0 (es.take k)).length ≤ 20) ∧
    (20 < es.length →
      runSaves h0 es = es.reverse.take 20 ∧
      (runSaves h0 es).length = 20 ∧
      ((es.map HistoryEntry.id).Nodup →
        ((runSaves h0 es).map HistoryEntry.id).Nodup)) := by
  constructor
  · intro k
    rw [runSaves_eq _ _ hlen, List.length_take]
    exact Nat.min_le_left _ _
  · intro hN
    have heq : runSaves h0 es = es.reverse.take 20 := by
      rw [runSaves_eq _ _ hlen, List.take_append_of_le_length]
      rw [List.length_reverse]
      omega
    refine ⟨heq, ?_, ?_⟩
    · rw [heq, List.length_take, List.length_reverse]
      omega
    · intro hnd
      rw [heq, List.map_take, List.map_reverse]
      have h1 : ((es.map HistoryEntry.id).reverse).Nodup := List.nodup_reverse.mpr hnd
      exact List.Nodup.sublist (List.take_sublist _ _) h1

theorem claim_C3_witness :
    ([] : List HistoryEntry).length ≤ 20 ∧ 20 < histProbe.length ∧
    ((∀ k, (runSaves [] (histProbe.take k)).length ≤ 20) ∧
      (runSaves [] histProbe = histProbe.reverse.take 20 ∧
        (runSaves [] histProbe).length = 20 ∧
        ((histProbe.map HistoryEntry.id).Nodup →
          ((runSaves [] histProbe).map HistoryEntry.id).Nodup))) :=
  ⟨by decide, by decide,
    (claim_C3 [] histProbe (by decide)).1,
    (claim_C3 [] histProbe (by decide)).2 (by decide)⟩

/-- clickAnalyze is a no-op while the busy flag is set, for any state
satisfying the orchestrator invariant. -/
theorem clickAnalyze_noop_of_loading (s : AppState) (h : InvA s)
    (hl : s.loading = true) : step s Event.clickAnalyze = s := by
  obtain ⟨h1, h2, h3, h4⟩ := h
  simp only [step, clickAnalyze]
  by_cases hct : canTriggerAnalyze s = true
  · rw [if_pos hct]
    unfold handleAnalyzeStart
    rcases canTrigger_cases hct with hf | he | hlo
    · rw [h4 hf]
    · rw [h3 hl] at he
      exact absurd he (by simp)
    · rw [hlo] at hl
      exact Bool.noConfusion hl
  · rw [if_neg hct]

/-- C8: in every reachable state of the orchestrator at most one analysis
request is in flight, and while the analysis busy flag is set a further
analyze trigger changes nothing: no rendered, enabled control issues a new
gateway request. -/
theorem claim_C8 (st : StoredState) (sid : String) (evs : List Event) :
    (run st sid evs).pendingAnalysis.length ≤ 1 ∧
    ((run st sid evs).loading = true →
      step (run st sid evs) Event.clickAnalyze = run st sid evs) :=
  ⟨(invA_run st sid evs).1,
    fun hl => clickAnalyze_noop_of_loading _ (invA_run st sid evs) hl⟩

theorem claim_C8_witness :
    (run emptyStore "sid" busyTrace).loading = true ∧
    (run emptyStore "sid" busyTrace).pendingAnalysis.length ≤ 1 ∧
    step (run emptyStore "sid" busyTrace) Event.clickAnalyze = run emptyStore "sid" busyTrace :=
  ⟨by decide, (claim_C8 emptyStore "sid" busyTrace).1,
    (claim_C8 emptyStore "sid" busyTrace).2 (by decide)⟩

/-- With no profile present, clickAnalyze never issues a request. -/
theorem clickAnalyze_pending_of_no_profile (s : AppState) (h : s.profile = none) :
    (step s Event.clickAnalyze).pendingAnalysis = s.pendingAnalysis := by
  simp only [step, clickAnalyze]
  by_cases hct : canTriggerAnalyze s = true
  · rw [if_pos hct]
    unfold handleAnalyzeStart
    rw [h]
  · rw [if_neg hct]

/-- C9 (amended): whenever the analyze operation actually issues a gateway
request, a profile is present; and provided the persistent store contents
are well-formed (every stored profile and stored history snapshot has a
positive salary, which is all the application itself ever writes), that
profile has salary > 0 — whether it came from the setup form, from sample
mode, from a history snapshot, or from the store at startup.  The
unqualified claim fails because the startup restore only checks that
parsed?.salary is truthy, so a corrupted store can inject a negative
salary (see the counterexample). -/
theorem claim_C9 (st : StoredState) (sid : String) (evs : List Event)
    (hwf : WFStore st)
    (hissue : (run st sid evs).pendingAnalysis.length <
      (step (run st sid evs) Event.clickAnalyze).pendingAnalysis.length) :
    ∃ p, (run st sid evs).profile = some p ∧ 0 < p.salary := by
  obtain ⟨hP1, hP2, hP3⟩ := invP_run st sid evs hwf
  cases hp : (run st sid evs).profile with
  | none =>
    rw [clickAnalyze_pending_of_no_profile _ hp] at hissue
    exact absurd hissue (lt_irrefl _)
  | some p => exact ⟨p, rfl, hP1 p hp⟩

theorem claim_C9_witness :
    WFStore emptyStore ∧
    (run emptyStore "sid" [Event.saveProfileBtn probeProfile]).pendingAnalysis.length <
      (step (run emptyStore "sid" [Event.saveProfileBtn probeProfile])
        Event.clickAnalyze).pendingAnalysis.length ∧
    (∃ p, (run emptyStore "sid" [Event.saveProfileBtn probeProfile]).profile = some p ∧
      0 < p.salary) :=
  ⟨wfStore_empty, by decide,
    claim_C9 emptyStore "sid" [Event.saveProfileBtn probeProfile] wfStore_empty (by decide)⟩

/-- C9 counterexample: a store whose profile record carries salary -1 is
restored at startup (the code only checks truthiness of salary), and the
very first analyze click issues a gateway request with that incomplete
profile: salary > 0 fails. -/
theorem claim_C9_counterexample :
    (run corruptStore "sid" [Event.clickAnalyze]).pendingAnalysis = [negSalaryProfile] ∧
    ¬ 0 < negSalaryProfile.salary := by
  decide

theorem view_history (s : AppState) (e : HistoryEntry) :
    (handleViewHistoryEntry s e).history = s.history := by
  unfold handleViewHistoryEntry
  cases e.profile with
  | some p => rfl
  | none => rfl

theorem view_idem (s : AppState) (e : HistoryEntry) :
    handleViewHistoryEntry (handleViewHistoryEntry s e) e = handleViewHistoryEntry s e := by
  unfold handleViewHistoryEntry
  cases e.profile with
  | some p => rfl
  | none => rfl

theorem view_pendingAnalysis (s : AppState) (e : HistoryEntry) :
    (handleViewHistoryEntry s e).pendingAnalysis = s.pendingAnalysis := by
  unfold handleViewHistoryEntry
  cases e.profile with
  | some p => rfl
  | none => rfl

theorem view_pendingChat (s : AppState) (e : HistoryEntry) :
    (handleViewHistoryEntry s e).pendingChat = s.pendingChat := by
  unfold handleViewHistoryEntry
  cases e.profile with
  | some p => rfl
  | none => rfl

/-- C10: selecting a history entry is idempotent and side-effect-free on
History: selecting the same entry twice equals selecting it once (hence
the same active report and profile), the history sequence is unchanged in
length and order, and no gateway call is issued on either channel (both
pending-request queues are untouched). -/
theorem claim_C10 (s : AppState) (e : HistoryEntry) :
    step (step s (Event.selectHistoryEntry e)) (Event.selectHistoryEntry e) =
      step s (Event.selectHistoryEntry e) ∧
    (step s (Event.selectHistoryEntry e)).history = s.history ∧
    (step s (Event.selectHistoryEntry e)).pendingAnalysis = s.pendingAnalysis ∧
    (step s (Event.selectHistoryEntry e)).pendingChat = s.pendingChat := by
  simp only [step, clickHistoryEntry]
  by_cases hm : e ∈ s.history
  · rw [if_pos hm, view_history, if_pos hm]
    exact ⟨view_idem s e, rfl, view_pendingAnalysis s e, view_pendingChat s e⟩
  · rw [if_neg hm, if_neg hm]
    exact ⟨rfl, rfl, rfl, rfl⟩

/-- handleChatDone never touches the history. -/
theorem chatDone_history (s : AppState) (res : Option AgentEnvelope) (now : Nat) :
    (handleChatDone s res now).history = s.history := by
  unfold handleChatDone
  cases s.pendingChat with
  | zero => rfl
  | succ n =>
    cases res with
    | none => rfl
    | some env =>
      dsimp only
      cases hpr : parseAgentResponse env with
      | none => rfl
      | some r =>
        dsimp only
        split
        · rfl
        · rfl

/-- C2 (amended): when a chat round-trip is in flight and the reply
normalizes to a report whose income_summary is truthy, the chat completion
writes that report into the same single current-report slot that the
analysis completion writes (the report field), exactly as the analysis
path would for the same envelope; but unlike the analysis path it appends
no History entry, and a structured-mode reply without a truthy
income_summary does not replace the report at all (see counterexample). -/
theorem claim_C2 (s : AppState) (env : AgentEnvelope) (now : Nat) (r : FinancialReport)
    (hpend : s.pendingChat ≠ 0)
    (hp : parseAgentResponse env = some r)
    (hinc : jvTruthy r.income_summary = true) :
    (step s (Event.chatDone (some env) now)).report = some r ∧
    (step s (Event.chatDone (some env) now)).history = s.history ∧
    (∀ (s2 : AppState) (p : FinancialProfile) (failMsg dateStr : String) (t2 : Nat),
      s2.pendingAnalysis = [p] →
      (step s2 (Event.analyzeDone (some env) failMsg t2 dateStr)).report = some r) := by
  refine ⟨?_, chatDone_history s (some env) now, ?_⟩
  · simp only [step]
    unfold handleChatDone
    cases hpc : s.pendingChat with
    | zero => exact absurd hpc hpend
    | succ n =>
      dsimp only
      rw [hp]
      dsimp only
      rw [hinc]
      rfl
  · intro s2 p failMsg dateStr t2 hpa
    simp only [step]
    unfold handleAnalyzeDone
    rw [hpa]
    dsimp only
    rw [hp]

def structIncomeEnv : AgentEnvelope := mkEnv structIncomePayload

def cardsOnlyEnv : AgentEnvelope := mkEnv mixedPayload

theorem claim_C2_witness :
    (run emptyStore "sid" chatBusyTrace).pendingChat ≠ 0 ∧
    parseAgentResponse structIncomeEnv = some (mkStructuredReport structIncomePayload) ∧
    jvTruthy (mkStructuredReport structIncomePayload).income_summary = true ∧
    ((step (run emptyStore "sid" chatBusyTrace) (Event.chatDone (some structIncomeEnv) 5)).report =
        some (mkStructuredReport structIncomePayload) ∧
      (step (run emptyStore "sid" chatBusyTrace) (Event.chatDone (some structIncomeEnv) 5)).history =
        (run emptyStore "sid" chatBusyTrace).history ∧
      (∀ (s2 : AppState) (p : FinancialProfile) (failMsg dateStr : String) (t2 : Nat),
        s2.pendingAnalysis = [p] →
        (step s2 (Event.analyzeDone (some structIncomeEnv) failMsg t2 dateStr)).report =
          some (mkStructuredReport structIncomePayload))) :=
  ⟨by decide, by decide, by decide,
    claim_C2 (run emptyStore "sid" chatBusyTrace) structIncomeEnv 5
      (mkStructuredReport structIncomePayload) (by decide) (by decide) (by decide)⟩

/-- C2 counterexample: for the same successfully-normalized structured
envelope, the chat completion leaves History empty while the analysis
completion appends an entry, so the consequent effects differ; moreover a
reply normalizing to a structured-mode report whose income_summary is
absent does not replace the active report at all. -/
theorem claim_C2_counterexample :
    (parseAgentResponse structIncomeEnv).isSome = true ∧
    (step (run emptyStore "sid" chatBusyTrace) (Event.chatDone (some structIncomeEnv) 5)).history = [] ∧
    (step (run emptyStore "sid" busyTrace) (Event.analyzeDone (some structIncomeEnv) "e" 5 "d")).history.length = 1 ∧
    parseAgentResponse cardsOnlyEnv = some (mkStructuredReport mixedPayload) ∧
    (step (run emptyStore "sid" chatBusyTrace) (Event.chatDone (some cardsOnlyEnv) 5)).report = none := by
  decide

end FinanceAgent
